import Mathlib

/-!
Shallow embedding of `src/src-tauri/src/main.rs` from the
`essl-node-middleware-gym-mgm` repository.

The program is a Tauri bootstrap shim.  Its `main` builds a Tauri
application with a `setup` hook and then runs the event loop.  The setup
hook behaves differently depending on the build mode:

* Development (`debug_assertions`): print a startup line, best-effort
  print the current working directory, check whether the backend script
  exists (advisory only), spawn `node ../services/backend-server.js`
  with stdout/stderr inherited and stdin piped, and on success store the
  child handle in application state (`app.manage`); on failure print an
  error line and continue.
* Production: resolve the `backend` sidecar and spawn it; both steps use
  `.expect`, so any failure panics and terminates the application.

After `setup`, `.run(ctx).expect(...)` runs the event loop; if `run`
returns an error the `.expect` panics, otherwise the final
`println!("❌ App loop exited unexpectedly!")` executes.

We model the external world by an `Env` record holding the outcome of
every OS/framework interaction, and `main` as a function from the mode
and the environment to the emitted event trace plus a final outcome
(normal return or termination by panic).
-/

namespace GymMgm

/-- Build mode: `debug_assertions` on (Development) or off (Production). -/
inductive Mode
  | Development
  | Production
deriving DecidableEq, Repr

/-- Stdio configuration used when building the `std::process::Command`. -/
inductive Stdio
  | inherit
  | piped
deriving DecidableEq, Repr

/-- The command built by `Command::new("node").arg(script_path)...` -/
structure Cmd where
  program : String
  args : List String
  stdout : Stdio
  stderr : Stdio
  stdin : Stdio
deriving DecidableEq, Repr

/-- Observable events of a run of the program: `println!` output, the
    process-spawn attempt (with full command configuration), the sidecar
    resolution and spawn attempts, storing state via `app.manage`
    (carrying the stored `Option<Child>` content), and entering the
    Tauri event loop. -/
inductive Event
  | println (s : String)
  | spawn (c : Cmd)
  | newSidecar (name : String)
  | spawnSidecar
  | manage (h : Option Nat)
  | runLoop
deriving DecidableEq, Repr

/-- Outcomes of the external interactions the program performs.  Child
    handles are abstracted as `Nat` identifiers; OS errors as their
    rendered description strings. -/
structure Env where
  /-- Result of `std::env::current_dir()`: `some` rendered path, or
      `none` when it errors (the `if let Ok` is skipped). -/
  cwd : Option String
  /-- Result of `std::path::Path::new(script_path).exists()`. -/
  scriptExists : Bool
  /-- Result of `Command::spawn()` in development mode. -/
  spawnResult : Except String Nat
  /-- Result of `TauriCommand::new_sidecar("backend")`. -/
  sidecarSetup : Except String Unit
  /-- Result of `.spawn()` on the resolved sidecar command. -/
  sidecarSpawn : Except String Nat
  /-- Result of `tauri::Builder::run`. -/
  runResult : Except String Unit

/-- Final outcome of `main`: normal return, or process termination via a
    panicking `.expect`. -/
inductive Outcome
  | ok
  | terminated (msg : String)
deriving DecidableEq, Repr

/-- `Outcome.isTerminated`: whether the process was aborted by a panic. -/
def Outcome.isTerminated : Outcome → Bool
  | .ok => false
  | .terminated _ => true

/-- `true` exactly when an `Except` value is an `error`. -/
def exceptFailed {α : Type} : Except String α → Bool
  | .error _ => true
  | .ok _ => false

/-- `let script_path = "../services/backend-server.js";` -/
def script_path : String := "../services/backend-server.js"

/-- `println!("🚀 Starting backend server with node...")` -/
def startMsg : String := "🚀 Starting backend server with node..."

/-- Rust `Debug` rendering of a path (the `:?` format wraps it in
    quotes). -/
def rustDebug (s : String) : String := "\"" ++ s ++ "\""

/-- `println!("📂 Current working directory: {:?}", cwd)` -/
def cwdMsg (cwd : String) : String :=
  "📂 Current working directory: " ++ rustDebug cwd

/-- `println!("✅ Script found at {}", script_path)` -/
def foundMsg : String := "✅ Script found at " ++ script_path

/-- `println!("⚠️ Script NOT found at {}. Trying absolute path resolution...", script_path)` -/
def notFoundMsg : String :=
  "⚠️ Script NOT found at " ++ script_path ++ ". Trying absolute path resolution..."

/-- `println!("✅ Backend node process spawned successfully")` -/
def spawnOkMsg : String := "✅ Backend node process spawned successfully"

/-- `println!("❌ Failed to spawn backend node process: {}", e)` -/
def spawnErrMsg (e : String) : String :=
  "❌ Failed to spawn backend node process: " ++ e

/-- `println!("❌ App loop exited unexpectedly!")` -/
def loopExitMsg : String := "❌ App loop exited unexpectedly!"

/-- The command built in development mode:
    `Command::new("node").arg(script_path).stdout(inherit).stderr(inherit).stdin(piped)`. -/
def nodeCmd : Cmd :=
  { program := "node"
    args := [script_path]
    stdout := Stdio.inherit
    stderr := Stdio.inherit
    stdin := Stdio.piped }

/-- Events of the `if let Ok(cwd) = std::env::current_dir()` block. -/
def cwdEvents : Option String → List Event
  | some c => [Event.println (cwdMsg c)]
  | none => []

/-- The diagnostic chosen by the `if Path::new(script_path).exists()`
    advisory check. -/
def checkMsg (exists? : Bool) : String :=
  if exists? then foundMsg else notFoundMsg

/-- Events of the `match child` arms: on `Ok(c)` print the success line
    and store `BackendProcess(Mutex::new(Some(c)))` in app state; on
    `Err(e)` print the failure line. -/
def spawnOutcomeEvents : Except String Nat → List Event
  | .ok c => [Event.println spawnOkMsg, Event.manage (some c)]
  | .error e => [Event.println (spawnErrMsg e)]

/-- Trace of the development-mode (`#[cfg(debug_assertions)]`) block of
    the setup hook, line by line from the source. -/
def devSetupTrace (env : Env) : List Event :=
  [Event.println startMsg]
    ++ cwdEvents env.cwd
    ++ [Event.println (checkMsg env.scriptExists)]
    ++ [Event.spawn nodeCmd]
    ++ spawnOutcomeEvents env.spawnResult

/-- Production-mode (`#[cfg(not(debug_assertions))]`) block:
    `TauriCommand::new_sidecar("backend").expect("failed to setup sidecar").spawn().expect("Failed to spawn sidecar")`.
    Each `.expect` on an `Err` panics, terminating the application. -/
def prodSetup (env : Env) : List Event × Outcome :=
  match env.sidecarSetup with
  | .error e =>
      ([Event.newSidecar "backend"], Outcome.terminated ("failed to setup sidecar: " ++ e))
  | .ok _ =>
      match env.sidecarSpawn with
      | .error e =>
          ([Event.newSidecar "backend", Event.spawnSidecar],
            Outcome.terminated ("Failed to spawn sidecar: " ++ e))
      | .ok _ =>
          ([Event.newSidecar "backend", Event.spawnSidecar], Outcome.ok)

/-- The setup hook.  In development mode it always reaches the final
    `Ok(())`; in production mode a failed `.expect` panics. -/
def setup : Mode → Env → List Event × Outcome
  | Mode.Development, env => (devSetupTrace env, Outcome.ok)
  | Mode.Production, env => prodSetup env

/-- Events after a successful setup:
    `.run(ctx).expect("error while running tauri application")` followed,
    only when `run` returned `Ok`, by the final `println!`. -/
def runTail : Except String Unit → List Event
  | .ok _ => [Event.runLoop, Event.println loopExitMsg]
  | .error _ => [Event.runLoop]

/-- The whole `fn main()`: run the setup hook; if it panicked the
    process terminates before the event loop; otherwise enter the event
    loop, and on an `Err` from `run` the `.expect` panics, while on `Ok`
    the final diagnostic line is printed and `main` returns. -/
def main (mode : Mode) (env : Env) : List Event × Outcome :=
  match setup mode env with
  | (t, Outcome.terminated m) => (t, Outcome.terminated m)
  | (t, Outcome.ok) =>
      match env.runResult with
      | .error e =>
          (t ++ runTail (Except.error e),
            Outcome.terminated ("error while running tauri application: " ++ e))
      | .ok _ => (t ++ runTail (Except.ok ()), Outcome.ok)

/-- The list of process-spawn commands attempted in a trace. -/
def spawnCmds (t : List Event) : List Cmd :=
  t.filterMap fun e =>
    match e with
    | Event.spawn c => some c
    | _ => none

/-- Number of `app.manage` (state-storing) events in a trace. -/
def manageCount (t : List Event) : Nat :=
  t.countP fun e =>
    match e with
    | Event.manage _ => true
    | _ => false

/-- `b` occurs strictly after an occurrence of `a` in trace `t`. -/
def eventAfter (a b : Event) (t : List Event) : Prop :=
  ∃ l₁ l₂, t = l₁ ++ a :: l₂ ∧ b ∈ l₂

/-- Boolean substring test over the rendered characters. -/
def strContains (hay needle : String) : Bool :=
  (List.range (hay.toList.length + 1)).any fun i =>
    needle.toList.isPrefixOf (hay.toList.drop i)

/-- The development-mode events that follow the best-effort CWD
    diagnostic: advisory existence check, unconditional spawn, and the
    spawn-outcome handling. -/
def devAfterCwd (env : Env) : List Event :=
  [Event.println (checkMsg env.scriptExists), Event.spawn nodeCmd]
    ++ spawnOutcomeEvents env.spawnResult

/-- A development environment where everything succeeds. -/
def envDevOk : Env :=
  ⟨some "/app", true, Except.ok 7, Except.ok (), Except.ok 0, Except.ok ()⟩

/-- A development environment with no resolvable CWD and a failing
    spawn. -/
def envDevNoCwd : Env :=
  ⟨none, false, Except.error "No such file or directory",
    Except.ok (), Except.ok 0, Except.ok ()⟩

/-- A development environment where the event-loop runner returns an
    error. -/
def envRunErr : Env :=
  ⟨none, true, Except.ok 7, Except.ok (), Except.ok 0,
    Except.error "webview init failed"⟩

/-! ### Structural helper lemmas -/

lemma main_dev_trace (env : Env) :
    (main Mode.Development env).1 = devSetupTrace env ++ runTail env.runResult := by
  rcases env with ⟨cwd, se, sr, sst, ssp, rr⟩
  rcases rr with e | u <;> rfl

lemma main_dev_outcome (env : Env) :
    (main Mode.Development env).2 =
      match env.runResult with
      | .ok _ => Outcome.ok
      | .error e => Outcome.terminated ("error while running tauri application: " ++ e) := by
  rcases env with ⟨cwd, se, sr, sst, ssp, rr⟩
  rcases rr with e | u <;> rfl

lemma devSetupTrace_eq (env : Env) :
    devSetupTrace env =
      Event.println startMsg :: (cwdEvents env.cwd ++ devAfterCwd env) := by
  simp [devSetupTrace, devAfterCwd, List.append_assoc]

lemma eventAfter_append_right {a b : Event} {t u : List Event}
    (h : eventAfter a b t) : eventAfter a b (t ++ u) := by
  rcases h with ⟨l₁, l₂, rfl, hb⟩
  exact ⟨l₁, l₂ ++ u, by simp, List.mem_append_left _ hb⟩

lemma spawnCmds_dev (env : Env) :
    spawnCmds (main Mode.Development env).1 = [nodeCmd] := by
  rw [main_dev_trace, devSetupTrace_eq]
  rcases env with ⟨cwd, se, sr, sst, ssp, rr⟩
  rcases cwd with _ | c <;> rcases sr with e | c' <;> rcases rr with e | u <;>
    simp [spawnCmds, devAfterCwd, cwdEvents, spawnOutcomeEvents, runTail]

lemma check_before_outcome (env : Env) (b : Event)
    (hb : b ∈ spawnOutcomeEvents env.spawnResult) :
    eventAfter (Event.println (checkMsg env.scriptExists)) b
      (main Mode.Development env).1 := by
  rw [main_dev_trace, devSetupTrace_eq]
  refine ⟨Event.println startMsg :: cwdEvents env.cwd,
    Event.spawn nodeCmd :: (spawnOutcomeEvents env.spawnResult ++ runTail env.runResult),
    ?_, ?_⟩
  · simp [devAfterCwd, List.append_assoc]
  · simp [hb]

/-! ### Claim theorems -/

/-- C1: in Development mode a spawn failure never terminates the
    application: the setup hook still returns `Ok`, the trace contains a
    failure line carrying the underlying OS error description, and
    startup continues into the event loop regardless of the spawn
    outcome. -/
theorem dev_spawn_failure_nonfatal (env : Env) (e : String)
    (h : env.spawnResult = Except.error e) :
    (setup Mode.Development env).2 = Outcome.ok ∧
    Event.println ("❌ Failed to spawn backend node process: " ++ e) ∈
      (main Mode.Development env).1 ∧
    Event.runLoop ∈ (main Mode.Development env).1 := by
  refine ⟨rfl, ?_, ?_⟩ <;>
    rw [main_dev_trace, devSetupTrace_eq] <;>
      simp [devAfterCwd, spawnOutcomeEvents, h, spawnErrMsg, runTail]
  rcases env.runResult with e' | u <;> simp [runTail]

/-- C1 witness: concrete development run whose spawn fails with error
    description "No such file or directory". -/
theorem dev_spawn_failure_nonfatal_witness :
    (setup Mode.Development
        ⟨some "/app", true, Except.error "No such file or directory",
          Except.ok (), Except.ok 0, Except.ok ()⟩).2 = Outcome.ok ∧
    Event.println ("❌ Failed to spawn backend node process: " ++ "No such file or directory") ∈
      (main Mode.Development
        ⟨some "/app", true, Except.error "No such file or directory",
          Except.ok (), Except.ok 0, Except.ok ()⟩).1 ∧
    Event.runLoop ∈
      (main Mode.Development
        ⟨some "/app", true, Except.error "No such file or directory",
          Except.ok (), Except.ok 0, Except.ok ()⟩).1 :=
  dev_spawn_failure_nonfatal _ _ rfl

/-- C6: at most one child-process handle is ever stored in application
    state during a run: in every mode and environment the trace of a
    whole run contains at most one `manage` event. -/
theorem at_most_one_manage (mode : Mode) (env : Env) :
    manageCount (main mode env).1 ≤ 1 := by
  rcases env with ⟨cwd, se, sr, sst, ssp, rr⟩
  rcases mode <;>
    rcases cwd with _ | c <;> rcases sr with e | c' <;>
      rcases sst with e | u <;> rcases ssp with e | c'' <;> rcases rr with e | u <;>
        simp [main, setup, devSetupTrace, cwdEvents, spawnOutcomeEvents, prodSetup,
          runTail, manageCount, checkMsg]

/-- C7: in Development mode, every run attempts exactly one spawn, and
    the command is `node` with the single argument
    `../services/backend-server.js`, stdout and stderr inherited, stdin
    piped. -/
theorem dev_spawn_command (env : Env) :
    spawnCmds (main Mode.Development env).1 =
      [{ program := "node"
         args := ["../services/backend-server.js"]
         stdout := Stdio.inherit
         stderr := Stdio.inherit
         stdin := Stdio.piped }] := by
  rw [spawnCmds_dev]
  rfl

/-- C2: in Production mode a failure of sidecar resolution or of the
    sidecar spawn terminates the application before the event loop is
    entered, and no production-mode `println!` ever contains the
    "spawned successfully" text (that diagnostic is development-only). -/
theorem prod_failure_fatal (env : Env) :
    (exceptFailed env.sidecarSetup = true ∨ exceptFailed env.sidecarSpawn = true →
      (main Mode.Production env).2.isTerminated = true ∧
      Event.runLoop ∉ (main Mode.Production env).1) ∧
    (∀ s, Event.println s ∈ (main Mode.Production env).1 →
      strContains s "spawned successfully" = false) := by
  rcases env with ⟨cwd, se, sr, sst, ssp, rr⟩
  rcases sst with e | u <;> rcases ssp with e' | c <;> rcases rr with e'' | u' <;>
    simp [main, setup, prodSetup, Outcome.isTerminated, exceptFailed, runTail]
  all_goals decide

/-- C2 witness: with the sidecar missing from the bundle the run is
    terminated with no event loop, and the only production `println!`
    text does not contain "spawned successfully". -/
theorem prod_failure_fatal_witness :
    ((main Mode.Production
        ⟨none, false, Except.error "x", Except.error "missing sidecar",
          Except.ok 0, Except.ok ()⟩).2.isTerminated = true ∧
      Event.runLoop ∉ (main Mode.Production
        ⟨none, false, Except.error "x", Except.error "missing sidecar",
          Except.ok 0, Except.ok ()⟩).1) ∧
    strContains loopExitMsg "spawned successfully" = false :=
  ⟨(prod_failure_fatal _).1 (Or.inl rfl),
    (prod_failure_fatal
        ⟨none, false, Except.error "x", Except.ok (), Except.ok 0, Except.ok ()⟩).2
      loopExitMsg (by simp [main, setup, prodSetup, runTail])⟩

/-- C3: in Development mode the existence-check result never gates the
    spawn: in every environment exactly the `node` spawn is attempted,
    and the found/not-found diagnostic is followed later in the trace by
    the spawn-success diagnostic or by the spawn-failure diagnostic. -/
theorem dev_check_advisory (env : Env) :
    spawnCmds (main Mode.Development env).1 = [nodeCmd] ∧
    (eventAfter (Event.println (checkMsg env.scriptExists))
        (Event.println spawnOkMsg) (main Mode.Development env).1 ∨
      ∃ e, env.spawnResult = Except.error e ∧
        eventAfter (Event.println (checkMsg env.scriptExists))
          (Event.println (spawnErrMsg e)) (main Mode.Development env).1) := by
  refine ⟨spawnCmds_dev env, ?_⟩
  rcases h : env.spawnResult with e | c
  · refine Or.inr ⟨e, rfl, check_before_outcome env _ ?_⟩
    rw [h]; simp [spawnOutcomeEvents]
  · refine Or.inl (check_before_outcome env _ ?_)
    rw [h]; simp [spawnOutcomeEvents]

/-- C4: in Development mode, when the script exists and the spawn
    succeeds, the "found" diagnostic is followed by the "spawned
    successfully" diagnostic and the child handle is stored in
    application state. -/
theorem dev_found_then_spawned (env : Env) (c : Nat)
    (h1 : env.scriptExists = true) (h2 : env.spawnResult = Except.ok c) :
    eventAfter (Event.println foundMsg) (Event.println spawnOkMsg)
      (main Mode.Development env).1 ∧
    Event.manage (some c) ∈ (main Mode.Development env).1 := by
  constructor
  · have hc : checkMsg env.scriptExists = foundMsg := by rw [h1]; rfl
    have h := check_before_outcome env (Event.println spawnOkMsg)
      (by rw [h2]; simp [spawnOutcomeEvents])
    rwa [hc] at h
  · rw [main_dev_trace, devSetupTrace_eq]
    simp [devAfterCwd, spawnOutcomeEvents, h2]

/-- C4 witness: concrete development run with the script present and a
    successful spawn of child 7. -/
theorem dev_found_then_spawned_witness :
    eventAfter (Event.println foundMsg) (Event.println spawnOkMsg)
      (main Mode.Development
        ⟨some "/app", true, Except.ok 7, Except.ok (), Except.ok 0, Except.ok ()⟩).1 ∧
    Event.manage (some 7) ∈
      (main Mode.Development
        ⟨some "/app", true, Except.ok 7, Except.ok (), Except.ok 0, Except.ok ()⟩).1 :=
  dev_found_then_spawned _ 7 rfl rfl

/-- C5 counterexample: a run where the event-loop runner call exits
    with an error.  The runner call is reached and exits (the run
    terminates), yet the "App loop exited unexpectedly!" diagnostic is
    NOT emitted, because the `.expect` panic fires before the final
    `println!`.  This refutes "for any reason". -/
theorem run_error_skips_final_diag :
    Event.runLoop ∈ (main Mode.Development envRunErr).1 ∧
    (main Mode.Development envRunErr).2 =
      Outcome.terminated ("error while running tauri application: " ++ "webview init failed") ∧
    Event.println loopExitMsg ∉ (main Mode.Development envRunErr).1 := by
  decide

/-- C5 amended: after a successful setup, the unexpected-termination
    diagnostic is emitted after the event loop exactly when the runner
    returns normally; when the runner returns an error, the application
    terminates via the `.expect` panic and the diagnostic is not
    emitted (the trace ends at the run-loop event). -/
theorem run_exit_diag_only_on_ok (mode : Mode) (env : Env)
    (h : (setup mode env).2 = Outcome.ok) :
    (env.runResult = Except.ok () →
      (main mode env).1 =
        (setup mode env).1 ++ [Event.runLoop, Event.println loopExitMsg]) ∧
    (∀ e, env.runResult = Except.error e →
      (main mode env).1 = (setup mode env).1 ++ [Event.runLoop] ∧
      (main mode env).2 =
        Outcome.terminated ("error while running tauri application: " ++ e)) := by
  rcases env with ⟨cwd, se, sr, sst, ssp, rr⟩
  rcases mode <;>
    rcases sst with e | u <;> rcases ssp with e' | c <;> rcases rr with e'' | u' <;>
      simp_all [main, setup, prodSetup, runTail]

/-- C5 amended witness: both branches at concrete environments. -/
theorem run_exit_diag_only_on_ok_witness :
    (main Mode.Development envDevOk).1 =
      (setup Mode.Development envDevOk).1 ++ [Event.runLoop, Event.println loopExitMsg] ∧
    ((main Mode.Development envRunErr).1 =
        (setup Mode.Development envRunErr).1 ++ [Event.runLoop] ∧
      (main Mode.Development envRunErr).2 =
        Outcome.terminated ("error while running tauri application: " ++ "webview init failed")) :=
  ⟨(run_exit_diag_only_on_ok Mode.Development envDevOk rfl).1 rfl,
    (run_exit_diag_only_on_ok Mode.Development envRunErr rfl).2 "webview init failed" rfl⟩

/-- C8: the CWD diagnostic is best-effort: when the CWD resolves its
    line is emitted right after the startup line, and when it does not,
    only that line is skipped — the rest of the development sequence
    (existence check, spawn, outcome handling, event loop) is identical
    in both cases. -/
theorem cwd_best_effort (env : Env) :
    (env.cwd = none →
      (main Mode.Development env).1 =
        Event.println startMsg :: (devAfterCwd env ++ runTail env.runResult)) ∧
    (∀ s, env.cwd = some s →
      (main Mode.Development env).1 =
        Event.println startMsg :: Event.println (cwdMsg s) ::
          (devAfterCwd env ++ runTail env.runResult)) := by
  rw [main_dev_trace, devSetupTrace_eq]
  constructor
  · intro h; rw [h]; simp [cwdEvents]
  · intro s h; rw [h]; simp [cwdEvents]

/-- C8 witness: the two CWD outcomes at concrete environments. -/
theorem cwd_best_effort_witness :
    (main Mode.Development envDevNoCwd).1 =
      Event.println startMsg ::
        (devAfterCwd envDevNoCwd ++ runTail envDevNoCwd.runResult) ∧
    (main Mode.Development envDevOk).1 =
      Event.println startMsg :: Event.println (cwdMsg "/app") ::
        (devAfterCwd envDevOk ++ runTail envDevOk.runResult) :=
  ⟨(cwd_best_effort envDevNoCwd).1 rfl, (cwd_best_effort envDevOk).2 "/app" rfl⟩

/-- C9: in Development mode the error path stores nothing — no handle,
    not even an empty one, is placed in application state — so a stored
    handle exists in the trace exactly when the spawn succeeded. -/
theorem manage_iff_spawn_ok (env : Env) :
    Event.manage none ∉ (main Mode.Development env).1 ∧
    ((∃ c, Event.manage (some c) ∈ (main Mode.Development env).1) ↔
      ∃ c, env.spawnResult = Except.ok c) := by
  rw [main_dev_trace, devSetupTrace_eq]
  rcases env with ⟨cwd, se, sr, sst, ssp, rr⟩
  rcases cwd with _ | c0 <;> rcases sr with e | c1 <;> rcases rr with e' | u <;>
    simp [devAfterCwd, cwdEvents, spawnOutcomeEvents, runTail]

/-- C10: the not-found diagnostic announces "Trying absolute path
    resolution..." but no alternative resolution happens: the spawn
    commands of a run are the same whether the existence check found
    the script or not, namely the single `node` invocation on the
    unmodified relative `script_path`. -/
theorem notfound_no_alt_resolution (env : Env) :
    spawnCmds (main Mode.Development { env with scriptExists := false }).1 =
      spawnCmds (main Mode.Development { env with scriptExists := true }).1 ∧
    spawnCmds (main Mode.Development { env with scriptExists := false }).1 = [nodeCmd] ∧
    nodeCmd.args = [script_path] ∧
    Event.println notFoundMsg ∈
      (main Mode.Development { env with scriptExists := false }).1 ∧
    strContains notFoundMsg "Trying absolute path resolution..." = true := by
  refine ⟨?_, spawnCmds_dev _, rfl, ?_, by decide⟩
  · rw [spawnCmds_dev, spawnCmds_dev]
  · rw [main_dev_trace, devSetupTrace_eq]
    simp [devAfterCwd, checkMsg]

end GymMgm
